import Mathlib

/-!
Verification development for the visionarr Dolby Vision Profile 7 → 8
converter.  The definitions below are shallow embeddings of the Python
source: `src/src/processor.py` (classifier, converter front end),
`src/dovi_convert.py` (FEL-complexity probe, PQ math, verification and
swap), `src/src/state.py` (catalog) and `src/src/main.py` (scheduler).
External tool invocations (ffmpeg, dovi_tool, mediainfo, mkvmerge) are
modelled by their observable outcomes, passed in as explicit arguments.
-/

namespace Visionarr

/-- Dolby Vision profiles (`class DoViProfile`, src/src/processor.py). -/
inductive DoViProfile where
  | PROFILE_5
  | PROFILE_7
  | PROFILE_8
  | UNKNOWN
deriving DecidableEq, Repr

/-- Enhancement-layer types for Profile 7 (`class ELType`, src/src/processor.py). -/
inductive ELType where
  | MEL
  | FEL_SIMPLE
  | FEL_COMPLEX
  | UNKNOWN
deriving DecidableEq, Repr

/-- Result of analyzing a media file (`@dataclass MediaAnalysis`,
src/src/processor.py lines 38-59).  The `file_path` field is dropped:
paths are opaque and unused by the derived properties. -/
structure MediaAnalysis where
  has_dovi : Bool
  dovi_profile : Option DoViProfile
  el_type : Option ELType
  video_codec : Option String
  is_mkv : Bool
  file_size_bytes : Nat
deriving DecidableEq, Repr

/-- `MediaAnalysis.needs_conversion` (src/src/processor.py lines 49-52):
`self.has_dovi and self.dovi_profile == DoViProfile.PROFILE_7`. -/
def MediaAnalysis.needs_conversion (a : MediaAnalysis) : Bool :=
  a.has_dovi && a.dovi_profile == some .PROFILE_7

/-- `MediaAnalysis.safe_to_auto_convert` (src/src/processor.py lines 54-59):
false when not `needs_conversion`, else `el_type in (MEL, FEL_SIMPLE)`. -/
def MediaAnalysis.safe_to_auto_convert (a : MediaAnalysis) : Bool :=
  if !a.needs_conversion then false
  else a.el_type == some .MEL || a.el_type == some .FEL_SIMPLE

/-- Restatement of the spec's words for `needs_conversion`
(spec §3: derived property `needs_conversion` ≡ `has_dovi && profile == P7`),
to be compared with the source definition. -/
def spec_needs_conversion (a : MediaAnalysis) : Prop :=
  a.has_dovi = true ∧ a.dovi_profile = some .PROFILE_7

/-- Restatement of the spec's words for `safe_to_auto_convert`
(spec §3: `safe_to_auto_convert` ≡ `needs_conversion && el_type ∈ {MEL, FEL_Simple}`). -/
def spec_safe_to_auto_convert (a : MediaAnalysis) : Prop :=
  spec_needs_conversion a ∧ (a.el_type = some .MEL ∨ a.el_type = some .FEL_SIMPLE)

/-- One attempt of `Processor._detect_el_type` (src/src/processor.py lines
560-636) at a given extraction window: either the ffmpeg → dovi_tool
extract-rpu → export pipeline fails to produce a JSON dump (`fail`), or a
JSON dump is produced and is scanned for the literal FEL / MEL markers. -/
inductive RpuAttempt where
  | fail
  | exported (hasFelMarker : Bool) (hasMelMarker : Bool)
deriving DecidableEq, Repr

/-- `Processor._detect_el_type` (src/src/processor.py lines 550-640),
as a function of the outcomes of the extraction attempts (the source
iterates durations `[5, 30]`, giving a two-element attempt list) and of
the FEL-complexity verdict `isComplex` (`self._check_fel_complexity`).
The FEL marker is checked before the MEL marker; a marker-less JSON falls
through to the next window; when every attempt is inconclusive the
source returns `ELType.MEL` (lines 638-640: "All attempts failed -
default to MEL (most releases are MEL)"). -/
def detect_el_type (isComplex : Bool) : List RpuAttempt → ELType
  | [] => .MEL
  | .fail :: rest => detect_el_type isComplex rest
  | .exported fel mel :: rest =>
    if fel then (if isComplex then .FEL_COMPLEX else .FEL_SIMPLE)
    else if mel then .MEL
    else detect_el_type isComplex rest

/-- An attempt is inconclusive when it fails outright or when the exported
JSON contains neither the FEL nor the MEL marker. -/
def attempt_inconclusive : RpuAttempt → Bool
  | .fail => true
  | .exported fel mel => !fel && !mel

/-- EL-type detection is inconclusive when every attempt is. -/
def detection_inconclusive (attempts : List RpuAttempt) : Bool :=
  attempts.all attempt_inconclusive

/-- The `MediaAnalysis` built by `Processor.analyze_file`
(src/src/processor.py lines 399-412) for a file whose profile resolved to
Profile 7: the EL type is always the result of `_detect_el_type`. -/
def analyze_file_profile7 (is_mkv : Bool) (size : Nat) (codec : Option String)
    (isComplex : Bool) (attempts : List RpuAttempt) : MediaAnalysis :=
  { has_dovi := true
    dovi_profile := some .PROFILE_7
    el_type := some (detect_el_type isComplex attempts)
    video_codec := codec
    is_mkv := is_mkv
    file_size_bytes := size }

/-- Claim C7: for every `MediaAnalysis` value, `needs_conversion` holds
exactly when `has_dovi` is true and the profile is Profile 7, and
`safe_to_auto_convert` holds exactly when `needs_conversion` holds and the
EL type is MEL or FEL_Simple; in particular `safe_to_auto_convert` is
false whenever the EL type is FEL_Complex or Unknown. -/
theorem C7_derived_properties (a : MediaAnalysis) :
    (a.needs_conversion = true ↔ spec_needs_conversion a) ∧
    (a.safe_to_auto_convert = true ↔ spec_safe_to_auto_convert a) ∧
    (a.el_type = some .FEL_COMPLEX ∨ a.el_type = some .UNKNOWN →
      a.safe_to_auto_convert = false) := by
  refine ⟨?_, ?_, ?_⟩
  · simp [MediaAnalysis.needs_conversion, spec_needs_conversion]
  · simp only [MediaAnalysis.safe_to_auto_convert, spec_safe_to_auto_convert,
      spec_needs_conversion, MediaAnalysis.needs_conversion]
    by_cases h1 : a.has_dovi = true <;>
      by_cases h2 : a.dovi_profile = some DoViProfile.PROFILE_7 <;>
      by_cases h3 : a.el_type = some ELType.MEL <;>
      by_cases h4 : a.el_type = some ELType.FEL_SIMPLE <;>
      simp [h1, h2, h3, h4, Bool.not_eq_true] at *
  · intro h
    rcases h with h | h <;>
      simp [MediaAnalysis.safe_to_auto_convert, MediaAnalysis.needs_conversion, h]

/-- Witness for C7 at a concrete analysis value. -/
theorem C7_derived_properties_witness :
    (MediaAnalysis.safe_to_auto_convert
      ⟨true, some .PROFILE_7, some .UNKNOWN, none, true, 1⟩) = false :=
  (C7_derived_properties ⟨true, some .PROFILE_7, some .UNKNOWN, none, true, 1⟩).2.2
    (Or.inr rfl)

/-- Claim C1 counterexample: on a Profile-7 file where both extraction
windows fail (detection inconclusive), `_detect_el_type` returns MEL -
not Unknown - and the resulting analysis is treated as safe for
auto-processing rather than as FEL_Complex. -/
theorem C1_inconclusive_counterexample :
    detection_inconclusive [.fail, .fail] = true ∧
    detect_el_type false [.fail, .fail] = .MEL ∧
    detect_el_type false [.fail, .fail] ≠ .UNKNOWN ∧
    (analyze_file_profile7 true 1 none false [.fail, .fail]).safe_to_auto_convert
      = true := by
  refine ⟨rfl, rfl, by decide, rfl⟩

/-- Claim C1 (amended): for every Profile-7 file on which EL-type
detection is inconclusive (no FEL or MEL marker found after both
extraction windows, or every extraction attempt fails), `_detect_el_type`
records the EL type as MEL (the source's deliberate fallback), and the
resulting verdict is treated as safe for auto-processing (not as
FEL_Complex). -/
theorem C1_inconclusive_defaults_to_mel (isComplex : Bool)
    (attempts : List RpuAttempt)
    (h : detection_inconclusive attempts = true) :
    detect_el_type isComplex attempts = .MEL ∧
    ∀ (is_mkv : Bool) (size : Nat) (codec : Option String),
      (analyze_file_profile7 is_mkv size codec isComplex attempts).safe_to_auto_convert
        = true := by
  have hmel : ∀ (l : List RpuAttempt),
      (∀ x ∈ l, attempt_inconclusive x = true) →
      detect_el_type isComplex l = .MEL := by
    intro l
    induction l with
    | nil => intro _; rfl
    | cons a rest ih =>
      intro hall
      have ha := hall a (List.mem_cons_self a rest)
      have hrest : ∀ x ∈ rest, attempt_inconclusive x = true :=
        fun x hx => hall x (List.mem_cons_of_mem a hx)
      cases a with
      | fail => exact ih hrest
      | exported fel mel =>
        cases fel with
        | true => simp [attempt_inconclusive] at ha
        | false =>
          cases mel with
          | true => simp [attempt_inconclusive] at ha
          | false => simpa [detect_el_type] using ih hrest
  have h' : ∀ x ∈ attempts, attempt_inconclusive x = true := by
    simpa [detection_inconclusive, List.all_eq_true] using h
  refine ⟨hmel attempts h', ?_⟩
  intro is_mkv size codec
  simp [analyze_file_profile7, hmel attempts h', MediaAnalysis.safe_to_auto_convert,
    MediaAnalysis.needs_conversion]

/-- Witness for C1's amended theorem at the concrete inconclusive input. -/
theorem C1_inconclusive_defaults_to_mel_witness :
    detect_el_type true [.fail, .exported false false] = .MEL ∧
    ∀ (is_mkv : Bool) (size : Nat) (codec : Option String),
      (analyze_file_profile7 is_mkv size codec true
        [.fail, .exported false false]).safe_to_auto_convert = true :=
  C1_inconclusive_defaults_to_mel true [.fail, .exported false false] (by decide)

/-! FEL-complexity probe (`DoviConvertApp.check_fel_complexity`,
src/dovi_convert.py lines 1073-1229, with `MediaToolWrapper.get_bl_peak`
lines 727-744 and `get_duration_ms` lines 747-758). -/

/-- Verdict strings of a `ScanResult` (src/dovi_convert.py lines 77-80). -/
inductive Verdict where
  | SAFE
  | COMPLEX
  | UNKNOWN
deriving DecidableEq, Repr

/-- The reason strings a `ScanResult` can carry out of
`check_fel_complexity`, abstracted to tags. -/
inductive ScanReason where
  | analysisFailed
  | melDetected
  | activeReconstruction
  | extractionFailed
  | insufficientData
  | simpleFel
deriving DecidableEq, Repr

/-- `ScanResult` (src/dovi_convert.py lines 77-80). -/
structure ScanResult where
  verdict : Verdict
  reason : ScanReason
deriving DecidableEq, Repr

/-- `MediaToolWrapper.get_bl_peak` (src/dovi_convert.py lines 727-744):
the MaxCLL value read from mediainfo, modelled as `some v` when the output
was a non-empty digit string parsing to `v` and `none` otherwise.  A value
of at least 100 nits is returned as-is with `is_default = false`; anything
else falls back to `(1000, true)`. -/
def get_bl_peak (maxcll : Option Nat) : Nat × Bool :=
  match maxcll with
  | some v => if 100 ≤ v then (v, false) else (1000, true)
  | none => (1000, true)

/-- Probe timestamps of `check_fel_complexity` (src/dovi_convert.py lines
1077-1090).  The source truncates `dur_sec * 0.05` etc. with `int(...)`;
the float products are modelled by exact rational arithmetic, so
`int(dur_sec * 0.05)` becomes `dur_sec * 5 / 100` in natural division. -/
def timestamps (duration_ms : Nat) : List Nat :=
  if duration_ms < 10000 then [0]
  else
    let dur_sec := duration_ms / 1000
    [dur_sec * 5 / 100, dur_sec * 15 / 100, dur_sec * 25 / 100,
     dur_sec * 35 / 100, dur_sec * 45 / 100, dur_sec * 55 / 100,
     dur_sec * 65 / 100, dur_sec * 75 / 100, dur_sec * 85 / 100,
     dur_sec * 95 / 100]

/-- Restatement of the spec's words for the probe set (spec §4.1 C.2 step
3: "ten timestamps at the 5%, 15%, 25%, ..., 95% marks of the duration"),
to be compared with the source's `timestamps`. -/
def spec_probe_marks (dur_sec : Nat) : List Nat :=
  (List.range 10).map (fun k => dur_sec * (10 * k + 5) / 100)

/-- Outcome of one probe iteration of `check_fel_complexity`
(src/dovi_convert.py lines 1103-1206) at one timestamp: `fail` when the
ffmpeg extraction, the RPU extraction or the JSON export produced no
usable file (the iteration is skipped before `probe_count` is
incremented); `melProbe` when the exported JSON contains the literal
MEL marker; `dataProbe l1_max` when a JSON was produced without the MEL
marker and `_extract_l1_max` returned `l1_max` (`none` when no L1 value
was found or the JSON failed to parse). -/
inductive ProbeOutcome where
  | fail
  | melProbe
  | dataProbe (l1_max : Option Int)
deriving DecidableEq, Repr

/-- The probe loop of `check_fel_complexity` (src/dovi_convert.py lines
1103-1206), parameterized by the PQ-to-nits conversion `nits`.  Returns
`none` on the early MEL return (line 1178-1182) and otherwise
`some (probe_count, complex_signal)`; an over-threshold L1 value (line
1196-1200) sets `complex_signal` and breaks out of the loop. -/
def probe_loop (nits : Int → Int) (threshold : Int) :
    List ProbeOutcome → Nat → Option (Nat × Bool)
  | [], probe_count => some (probe_count, false)
  | .fail :: rest, probe_count => probe_loop nits threshold rest probe_count
  | .melProbe :: _, _ => none
  | .dataProbe (some v) :: rest, probe_count =>
    if threshold < nits v then some (probe_count + 1, true)
    else probe_loop nits threshold rest (probe_count + 1)
  | .dataProbe none :: rest, probe_count =>
    probe_loop nits threshold rest (probe_count + 1)

/-- `DoviConvertApp.check_fel_complexity` (src/dovi_convert.py lines
1073-1229): threshold is the base-layer peak from `get_bl_peak` plus 50
nits; after the loop, zero successful probes or (absent a complex signal)
fewer than `max(1, len(timestamps) // 2)` successful probes force the
COMPLEX verdict; otherwise the verdict follows `complex_signal`. -/
def check_fel_complexity (nits : Int → Int) (duration_ms : Nat)
    (maxcll : Option Nat) (outcomes : List ProbeOutcome) : ScanResult :=
  let ts := timestamps duration_ms
  let bl_peak := (get_bl_peak maxcll).1
  let threshold : Int := (bl_peak : Int) + 50
  match probe_loop nits threshold outcomes 0 with
  | none => ⟨.SAFE, .melDetected⟩
  | some (probe_count, complex_signal) =>
    if probe_count = 0 then ⟨.COMPLEX, .extractionFailed⟩
    else if !complex_signal && probe_count < max 1 (ts.length / 2) then
      ⟨.COMPLEX, .insufficientData⟩
    else if complex_signal then ⟨.COMPLEX, .activeReconstruction⟩
    else ⟨.SAFE, .simpleFel⟩

/-- A probe outcome that neither carries the MEL marker nor an
over-threshold L1 value: iterating over it does not terminate the loop. -/
def probe_harmless (nits : Int → Int) (threshold : Int) : ProbeOutcome → Bool
  | .melProbe => false
  | .dataProbe (some v) => decide (nits v ≤ threshold)
  | _ => true

/-- No outcome in the list terminates the probe loop early. -/
def no_signal (nits : Int → Int) (threshold : Int)
    (l : List ProbeOutcome) : Bool :=
  l.all (probe_harmless nits threshold)

/-- Number of outcomes that produce a parseable JSON (those that increment
`probe_count`). -/
def parse_count : List ProbeOutcome → Nat
  | [] => 0
  | .fail :: rest => parse_count rest
  | _ :: rest => parse_count rest + 1

/-- `fail` outcomes are the ones skipped by the loop. -/
def probe_failed : ProbeOutcome → Bool
  | .fail => true
  | _ => false

theorem probe_loop_no_signal (nits : Int → Int) (threshold : Int)
    (l : List ProbeOutcome) (h : no_signal nits threshold l = true) :
    ∀ pc, probe_loop nits threshold l pc = some (pc + parse_count l, false) := by
  induction l with
  | nil => intro pc; simp [probe_loop, parse_count]
  | cons o rest ih =>
    have ho : probe_harmless nits threshold o = true ∧
        no_signal nits threshold rest = true := by
      have := h
      simp only [no_signal, List.all_cons, Bool.and_eq_true] at this
      exact this
    intro pc
    cases o with
    | fail =>
      simpa [probe_loop, parse_count] using ih ho.2 pc
    | melProbe => simp [probe_harmless] at ho
    | dataProbe l1 =>
      cases l1 with
      | none =>
        have := ih ho.2 (pc + 1)
        simp only [probe_loop, parse_count, this]
        congr 2
        omega
      | some v =>
        have hv : nits v ≤ threshold := by
          have := ho.1
          simpa [probe_harmless] using this
        have := ih ho.2 (pc + 1)
        simp only [probe_loop, if_neg (by omega : ¬ threshold < nits v), this,
          parse_count]
        congr 2
        omega

theorem probe_loop_append_mel (nits : Int → Int) (threshold : Int)
    (pre post : List ProbeOutcome) (h : no_signal nits threshold pre = true) :
    ∀ pc, probe_loop nits threshold (pre ++ .melProbe :: post) pc = none := by
  induction pre with
  | nil => intro pc; simp [probe_loop]
  | cons o rest ih =>
    have ho : probe_harmless nits threshold o = true ∧
        no_signal nits threshold rest = true := by
      have := h
      simp only [no_signal, List.all_cons, Bool.and_eq_true] at this
      exact this
    intro pc
    cases o with
    | fail => simpa [probe_loop] using ih ho.2 pc
    | melProbe => simp [probe_harmless] at ho
    | dataProbe l1 =>
      cases l1 with
      | none => simpa [probe_loop] using ih ho.2 (pc + 1)
      | some v =>
        have hv : nits v ≤ threshold := by
          have := ho.1
          simpa [probe_harmless] using this
        simpa [probe_loop, if_neg (by omega : ¬ threshold < nits v)]
          using ih ho.2 (pc + 1)

theorem probe_loop_append_hot (nits : Int → Int) (threshold : Int)
    (pre post : List ProbeOutcome) (v : Int)
    (h : no_signal nits threshold pre = true) (hv : threshold < nits v) :
    ∀ pc, probe_loop nits threshold (pre ++ .dataProbe (some v) :: post) pc
      = some (pc + parse_count pre + 1, true) := by
  induction pre with
  | nil => intro pc; simp [probe_loop, parse_count, if_pos hv]
  | cons o rest ih =>
    have ho : probe_harmless nits threshold o = true ∧
        no_signal nits threshold rest = true := by
      have := h
      simp only [no_signal, List.all_cons, Bool.and_eq_true] at this
      exact this
    intro pc
    cases o with
    | fail => simpa [probe_loop, parse_count] using ih ho.2 pc
    | melProbe => simp [probe_harmless] at ho
    | dataProbe l1 =>
      cases l1 with
      | none =>
        have hrec := ih ho.2 (pc + 1)
        simp only [List.cons_append, List.append_eq, probe_loop, parse_count,
          hrec]
        exact congrArg (fun n => some (n, true)) (by omega)
      | some w =>
        have hw : nits w ≤ threshold := by
          have := ho.1
          simpa [probe_harmless] using this
        have hrec := ih ho.2 (pc + 1)
        simp only [List.cons_append, List.append_eq, probe_loop,
          if_neg (by omega : ¬ threshold < nits w), hrec, parse_count]
        exact congrArg (fun n => some (n, true)) (by omega)

theorem all_failed_facts (nits : Int → Int) (threshold : Int)
    (l : List ProbeOutcome) (h : l.all probe_failed = true) :
    no_signal nits threshold l = true ∧ parse_count l = 0 := by
  induction l with
  | nil => exact ⟨rfl, rfl⟩
  | cons o rest ih =>
    have ho : probe_failed o = true ∧ rest.all probe_failed = true := by
      have := h
      simp only [List.all_cons, Bool.and_eq_true] at this
      exact this
    cases o with
    | fail =>
      obtain ⟨h1, h2⟩ := ih ho.2
      refine ⟨?_, ?_⟩
      · simpa [no_signal, probe_harmless] using h1
      · simpa [parse_count] using h2
    | melProbe => simp [probe_failed] at ho
    | dataProbe l1 => simp [probe_failed] at ho

/-- Claim C4: for every FEL-complexity probe run, a probe whose RPU JSON
contains the MEL marker re-classifies the file as safe immediately
(whatever comes after it); a probe whose L1 value converts to nits above
the threshold yields FEL_Complex immediately; after all timestamps, zero
parseable probes yields FEL_Complex (extraction failed), fewer than
`max(1, |probes|/2)` successes with no over-threshold signal yields
FEL_Complex (insufficient data), and every remaining case is safe
(Simple FEL). -/
theorem C4_fel_probe_verdicts (nits : Int → Int) (duration_ms : Nat)
    (maxcll : Option Nat) :
    (∀ pre post,
      no_signal nits (((get_bl_peak maxcll).1 : Int) + 50) pre = true →
      check_fel_complexity nits duration_ms maxcll (pre ++ .melProbe :: post)
        = ⟨.SAFE, .melDetected⟩) ∧
    (∀ pre post v,
      no_signal nits (((get_bl_peak maxcll).1 : Int) + 50) pre = true →
      ((get_bl_peak maxcll).1 : Int) + 50 < nits v →
      check_fel_complexity nits duration_ms maxcll
        (pre ++ .dataProbe (some v) :: post)
        = ⟨.COMPLEX, .activeReconstruction⟩) ∧
    (∀ outcomes, outcomes.all probe_failed = true →
      check_fel_complexity nits duration_ms maxcll outcomes
        = ⟨.COMPLEX, .extractionFailed⟩) ∧
    (∀ outcomes,
      no_signal nits (((get_bl_peak maxcll).1 : Int) + 50) outcomes = true →
      0 < parse_count outcomes →
      parse_count outcomes < max 1 ((timestamps duration_ms).length / 2) →
      check_fel_complexity nits duration_ms maxcll outcomes
        = ⟨.COMPLEX, .insufficientData⟩) ∧
    (∀ outcomes,
      no_signal nits (((get_bl_peak maxcll).1 : Int) + 50) outcomes = true →
      max 1 ((timestamps duration_ms).length / 2) ≤ parse_count outcomes →
      check_fel_complexity nits duration_ms maxcll outcomes
        = ⟨.SAFE, .simpleFel⟩) := by
  refine ⟨?_, ?_, ?_, ?_, ?_⟩
  · intro pre post h
    have hl := probe_loop_append_mel nits _ pre post h 0
    simp [check_fel_complexity, hl]
  · intro pre post v h hv
    have hl := probe_loop_append_hot nits _ pre post v h hv 0
    simp only [check_fel_complexity, hl]
    have h1 : ¬ (0 + parse_count pre + 1 = 0) := by omega
    simp [h1]
  · intro outcomes hfail
    obtain ⟨hns, hpc⟩ :=
      all_failed_facts nits (((get_bl_peak maxcll).1 : Int) + 50) outcomes hfail
    have hl := probe_loop_no_signal nits _ outcomes hns 0
    simp [check_fel_complexity, hl, hpc]
  · intro outcomes h h0 hlt
    have hl := probe_loop_no_signal nits _ outcomes h 0
    have h1 : ¬ (parse_count outcomes = 0) := by omega
    have h3 : parse_count outcomes < (timestamps duration_ms).length / 2 := by
      omega
    simp [check_fel_complexity, hl, h1, h3]
  · intro outcomes h hge
    have hl := probe_loop_no_signal nits _ outcomes h 0
    have h1 : ¬ (parse_count outcomes = 0) := by omega
    have h3 : ¬ (parse_count outcomes < (timestamps duration_ms).length / 2) := by
      omega
    simp [check_fel_complexity, hl, h1, h3]

/-- Witness for C4: the MEL fast path at a concrete probe run. -/
theorem C4_fel_probe_verdicts_witness :
    check_fel_complexity (fun v => v) 0 none [.melProbe]
      = ⟨.SAFE, .melDetected⟩ :=
  (C4_fel_probe_verdicts (fun v => v) 0 none).1 [] [] rfl

/-- Claim C5: the probe set is exactly `{0}` for durations under 10
seconds and otherwise exactly the ten timestamps at the 5%, 15%, ..., 95%
marks of the duration in seconds; the over-threshold test uses
`threshold = base_peak + 50` nits where `base_peak` is MaxCLL when present
and at least 100 nits, and the flagged default 1000 nits otherwise. -/
theorem C5_probe_set_and_threshold (duration_ms : Nat) (maxcll : Option Nat) :
    (duration_ms < 10000 → timestamps duration_ms = [0]) ∧
    (10000 ≤ duration_ms →
      timestamps duration_ms = spec_probe_marks (duration_ms / 1000)) ∧
    (∀ v : Nat, 100 ≤ v → get_bl_peak (some v) = (v, false)) ∧
    (∀ v : Nat, v < 100 → get_bl_peak (some v) = (1000, true)) ∧
    get_bl_peak none = (1000, true) ∧
    (∀ (nits : Int → Int) (v : Int), duration_ms < 10000 →
      ((check_fel_complexity nits duration_ms maxcll
          [.dataProbe (some v)]).verdict = .COMPLEX
        ↔ ((get_bl_peak maxcll).1 : Int) + 50 < nits v)) := by
  refine ⟨?_, ?_, ?_, ?_, rfl, ?_⟩
  · intro h
    simp [timestamps, h]
  · intro h
    unfold timestamps spec_probe_marks
    rw [if_neg (by omega)]
    rfl
  · intro v hv
    simp [get_bl_peak, hv]
  · intro v hv
    have h100 : ¬ 100 ≤ v := by omega
    simp [get_bl_peak, h100]
  · intro nits v hdur
    by_cases h : ((get_bl_peak maxcll).1 : Int) + 50 < nits v <;>
      simp [check_fel_complexity, probe_loop, timestamps, hdur, h]

/-- Witness for C5 at a short duration, absent MaxCLL and a hot probe. -/
theorem C5_probe_set_and_threshold_witness :
    timestamps 5000 = [0] ∧
    get_bl_peak (some 50) = (1000, true) ∧
    ((check_fel_complexity (fun v => v) 5000 none
        [.dataProbe (some 2000)]).verdict = .COMPLEX
      ↔ ((get_bl_peak none).1 : Int) + 50 < (fun v : Int => v) 2000) :=
  ⟨(C5_probe_set_and_threshold 5000 none).1 (by decide),
   (C5_probe_set_and_threshold 5000 (some 50)).2.2.2.1 50 (by decide),
   (C5_probe_set_and_threshold 5000 none).2.2.2.2.2 (fun v => v) 2000
     (by decide)⟩

/-! Conversion verification and swap (`Processor._verify_conversion`,
src/src/processor.py lines 866-889, and `DoviConvertApp._convert_finalize`,
src/dovi_convert.py lines 1700-1753; both implement the same check). -/

/-- Frame-count verification.  Inputs are the container-reported
(mediainfo) frame counts of the source and of the converted output and
the authoritative (ffprobe packet-count) frame count of the source.
Returns `(accepted, ffprobe_consulted)`.  The source guards the mismatch
branch with Python truthiness: `if frames_orig and frames_orig != frames_new`,
so a zero source count skips verification entirely. -/
def verify_conversion (frames_orig frames_new ff_orig : Nat) : Bool × Bool :=
  if frames_orig != 0 && frames_orig != frames_new then
    (ff_orig == frames_new, true)
  else
    (true, false)

/-- Provenance tag for the contents of the files touched by a conversion. -/
inductive FileContent where
  | original
  | converted
deriving DecidableEq, Repr

/-- The slice of the file system touched by `_convert_finalize`
(src/dovi_convert.py lines 1700-1753): the source path, the `.tmp` partial
output (`temp_mkv`) and the backup path (`backup_mkv`). -/
structure ConvertFs where
  at_path : Option FileContent
  at_temp : Option FileContent
  at_backup : Option FileContent
deriving DecidableEq, Repr

/-- `DoviConvertApp._convert_finalize` without an output directory and
with `delete_backup = false` (the defaults, and what the daemon's
`dovi_convert -convert` invocation uses): on acceptance the source is
renamed to the backup and the partial is renamed into place (returns 0);
on rejection it returns 1 and `cmd_convert`'s cleanup deletes the partial,
leaving the source untouched. -/
def convert_finalize (frames_orig frames_new ff_orig : Nat)
    (fs : ConvertFs) : Int × ConvertFs :=
  if (verify_conversion frames_orig frames_new ff_orig).1 then
    (0, { at_path := fs.at_temp, at_temp := none, at_backup := fs.at_path })
  else
    (1, { fs with at_temp := none })

/-- Claim C6 counterexample: with a source whose container-reported frame
count reads 0, a converted output of 7 frames and an authoritative source
count of 3 frames, the counts neither match (0 ≠ 7) nor does the
authoritative count equal the new count (3 ≠ 7), yet verification
accepts. -/
theorem C6_verify_counterexample :
    (verify_conversion 0 7 3).1 = true ∧ (0 : Nat) ≠ 7 ∧ (3 : Nat) ≠ 7 := by
  refine ⟨rfl, by decide, by decide⟩

/-- Claim C6 (amended): verification accepts exactly when the
container-reported counts match, or the source's container-reported count
is unavailable (reads 0), or the authoritative source count equals the
new container-reported count; in every other case the conversion is
rejected, the partial output is deleted and the original is intact. -/
theorem C6_verification (frames_orig frames_new ff_orig : Nat)
    (fs : ConvertFs) :
    ((verify_conversion frames_orig frames_new ff_orig).1 = true ↔
      (frames_orig = 0 ∨ frames_orig = frames_new ∨ ff_orig = frames_new)) ∧
    ((verify_conversion frames_orig frames_new ff_orig).1 = true →
      convert_finalize frames_orig frames_new ff_orig fs
        = (0, ⟨fs.at_temp, none, fs.at_path⟩)) ∧
    ((verify_conversion frames_orig frames_new ff_orig).1 = false →
      convert_finalize frames_orig frames_new ff_orig fs
        = (1, { fs with at_temp := none })) := by
  refine ⟨?_, ?_, ?_⟩
  · by_cases h0 : frames_orig = 0 <;>
      by_cases h1 : frames_orig = frames_new <;>
      by_cases h2 : ff_orig = frames_new <;>
      simp [verify_conversion, h0, h1, h2]
  · intro h
    simp [convert_finalize, h]
  · intro h
    simp [convert_finalize, h]

/-- Witness for C6's amended theorem at the counterexample input. -/
theorem C6_verification_witness :
    convert_finalize 0 7 3 ⟨some .original, some .converted, none⟩
      = (0, ⟨some .converted, none, some .original⟩) :=
  (C6_verification 0 7 3 ⟨some .original, some .converted, none⟩).2.1 rfl

/-- Claim C10: when the container-reported frame count of the source
reads 0, verification accepts unconditionally - whatever the converted
file's own count and whatever the authoritative count would have been -
and the ffprobe packet count is never consulted; finalization then
performs the swap. -/
theorem C10_zero_source_count_accepts (frames_new ff_orig : Nat)
    (fs : ConvertFs) :
    verify_conversion 0 frames_new ff_orig = (true, false) ∧
    convert_finalize 0 frames_new ff_orig fs
      = (0, ⟨fs.at_temp, none, fs.at_path⟩) := by
  constructor
  · simp [verify_conversion]
  · simp [convert_finalize, verify_conversion]

/-! Backup policy of `Processor.convert_to_profile8`
(src/src/processor.py lines 891-948) layered over the `dovi_convert`
CLI's swap (src/dovi_convert.py lines 1731-1750). -/

/-- The slice of the file system relevant to the backup contract: the
source path, the CLI's backup `<name>.mkv.bak.dovi_convert` and the
processor's backup `<name>.mkv.original`. -/
structure BackupFs where
  at_path : Option FileContent
  at_dovi_backup : Option FileContent
  at_our_backup : Option FileContent
deriving DecidableEq, Repr

/-- Effect of a successful `dovi_convert -convert <path>` run as the
processor invokes it (no `-delete`, no `-o`, so `delete_backup = false`):
`_convert_finalize` renames the original to `backup_mkv` and the partial
into place (src/dovi_convert.py lines 1731-1750), and the CLI exits 0 only
on that path.  `_convert_setup_paths` (lines 1618-1620) aborts when the
backup path is already occupied, so runs are modelled from a state with
`at_dovi_backup = none`. -/
def dovi_convert_success_run (fs : BackupFs) : BackupFs :=
  { at_path := some .converted
    at_dovi_backup := fs.at_path
    at_our_backup := fs.at_our_backup }

/-- The backup handling of `Processor.convert_to_profile8` after the CLI
returned success (src/src/processor.py lines 925-939): with
`should_backup = backup_enabled or force_backup`, an existing CLI backup
is either moved to `<name>.mkv.original` (replacing any stale one) or
deleted. -/
def convert_to_profile8_backup (backup_enabled force_backup : Bool)
    (fs : BackupFs) : BackupFs :=
  match fs.at_dovi_backup with
  | some c =>
    if backup_enabled || force_backup then
      { fs with at_our_backup := some c, at_dovi_backup := none }
    else
      { fs with at_dovi_backup := none }
  | none => fs

/-- `Processor.convert_to_profile8 (file_path, force_backup)` on the
successful path: the CLI conversion followed by the processor's backup
handling. -/
def convert_to_profile8 (backup_enabled force_backup : Bool)
    (fs : BackupFs) : BackupFs :=
  convert_to_profile8_backup backup_enabled force_backup
    (dovi_convert_success_run fs)

/-- Claim C2: after every successful `convert_to_profile8` run starting
from a clean state (original at the path, no leftover backups), a backup
file exists if and only if `backup_enabled` or `force_backup` was set;
when a backup exists it holds the original content and the converted file
is at the path; when both flags are false the backup is deleted after the
swap and the original content survives only in the converted file. -/
theorem C2_backup_policy (backup_enabled force_backup : Bool)
    (fs : BackupFs) (hpath : fs.at_path = some .original)
    (_hdovi : fs.at_dovi_backup = none) (hour : fs.at_our_backup = none) :
    (((convert_to_profile8 backup_enabled force_backup fs).at_dovi_backup.isSome
        ∨ (convert_to_profile8 backup_enabled force_backup fs).at_our_backup.isSome)
      ↔ (backup_enabled = true ∨ force_backup = true)) ∧
    (backup_enabled = true ∨ force_backup = true →
      convert_to_profile8 backup_enabled force_backup fs
        = ⟨some .converted, none, some .original⟩) ∧
    (backup_enabled = false → force_backup = false →
      convert_to_profile8 backup_enabled force_backup fs
        = ⟨some .converted, none, none⟩) := by
  refine ⟨?_, ?_, ?_⟩
  · cases backup_enabled <;> cases force_backup <;>
      simp [convert_to_profile8, convert_to_profile8_backup,
        dovi_convert_success_run, hpath, hour]
  · intro h
    rcases h with h | h <;> subst h <;>
      simp [convert_to_profile8, convert_to_profile8_backup,
        dovi_convert_success_run, hpath, hour]
  · intro h1 h2
    subst h1; subst h2
    simp [convert_to_profile8, convert_to_profile8_backup,
      dovi_convert_success_run, hpath, hour]

/-- Witness for C2: a forced backup with `backup_enabled = false` (the
forced Complex-FEL conversion) retains the original as a backup. -/
theorem C2_backup_policy_witness :
    convert_to_profile8 false true ⟨some .original, none, none⟩
      = ⟨some .converted, none, some .original⟩ :=
  (C2_backup_policy false true ⟨some .original, none, none⟩ rfl rfl rfl).2.1
    (Or.inr rfl)

/-! Catalog (`StateDB`, src/src/state.py) and scheduler
(`Visionarr._process_next_discovered` and the scan loops, src/src/main.py).
SQL rows are modelled as lists; `CURRENT_TIMESTAMP` becomes an explicit
`now` argument. -/

/-- One row of the `discovered_files` table (src/src/state.py lines
68-73).  The `el_type` column is the one the scheduler's calls pass
(src/src/main.py line 332); it is absent from the `state.py` snapshot
under src/ and is modelled from the spec's `DiscoveredEntry`
(`el_type_label`). -/
structure DiscoveredEntry where
  file_path : String
  title : String
  el_type : ELType
  discovered_at : Nat
deriving DecidableEq, Repr

/-- The tables of `StateDB` the claims touch: `discovered_files`,
`processed_files` (paths only) and `scanned_files` (paths only). -/
structure StateDB where
  discovered : List DiscoveredEntry
  processed : List String
  scanned : List String
deriving DecidableEq, Repr

/-- Insertion step of a descending sort on `discovered_at`, modelling the
SQL `ORDER BY d.discovered_at DESC` of `get_discovered`. -/
def insert_by_discovered_desc (e : DiscoveredEntry) :
    List DiscoveredEntry → List DiscoveredEntry
  | [] => [e]
  | x :: xs =>
    if x.discovered_at ≤ e.discovered_at then e :: x :: xs
    else x :: insert_by_discovered_desc e xs

/-- Descending sort on `discovered_at` (insertion sort). -/
def sort_discovered_desc (l : List DiscoveredEntry) : List DiscoveredEntry :=
  l.foldr insert_by_discovered_desc []

/-- `StateDB.get_discovered` (src/src/state.py lines 416-425): all
discovered rows whose path is not in `processed_files`, ordered by
`discovered_at DESC` (newest first). -/
def get_discovered (db : StateDB) : List DiscoveredEntry :=
  sort_discovered_desc (db.discovered.filter
    (fun e => decide (e.file_path ∉ db.processed)))

/-- Modelled from the spec: `get_mel_entries()` (spec §4.3), the
convenience filter of the discovered listing to MEL entries; the
`StateDB.get_mel_files` called by src/src/main.py line 421 is absent from
the `state.py` snapshot under src/. -/
def get_mel_files (db : StateDB) : List DiscoveredEntry :=
  (get_discovered db).filter (fun e => e.el_type == .MEL)

/-- Values of the `auto_process_mode` setting. -/
inductive AutoMode where
  | off
  | all
  | movies
  | shows
deriving DecidableEq, Repr

/-- Candidate selection of `Visionarr._process_next_discovered`
(src/src/main.py lines 399-441): nothing when auto mode is off; with
`auto_process_fel` the head of `get_discovered()` (`all_files[0]`), else
the head of the MEL-only listing. -/
def process_next_discovered (auto_mode : AutoMode) (process_fel : Bool)
    (db : StateDB) : Option DiscoveredEntry :=
  if auto_mode == .off then none
  else if process_fel then (get_discovered db).head?
  else (get_mel_files db).head?

theorem mem_insert_by_discovered_desc (e y : DiscoveredEntry)
    (l : List DiscoveredEntry) :
    y ∈ insert_by_discovered_desc e l ↔ y = e ∨ y ∈ l := by
  induction l with
  | nil => simp [insert_by_discovered_desc]
  | cons x xs ih =>
    by_cases h : x.discovered_at ≤ e.discovered_at
    · simp [insert_by_discovered_desc, h, ih]
      try tauto
    · simp [insert_by_discovered_desc, h, ih]
      try tauto

theorem mem_sort_discovered_desc (y : DiscoveredEntry)
    (l : List DiscoveredEntry) :
    y ∈ sort_discovered_desc l ↔ y ∈ l := by
  induction l with
  | nil => simp [sort_discovered_desc]
  | cons x xs ih =>
    simp only [sort_discovered_desc, List.foldr_cons] at *
    rw [mem_insert_by_discovered_desc]
    simp [ih]

theorem pairwise_insert_by_discovered_desc (e : DiscoveredEntry)
    (l : List DiscoveredEntry)
    (h : l.Pairwise (fun a b => b.discovered_at ≤ a.discovered_at)) :
    (insert_by_discovered_desc e l).Pairwise
      (fun a b => b.discovered_at ≤ a.discovered_at) := by
  induction l with
  | nil => simp [insert_by_discovered_desc]
  | cons x xs ih =>
    obtain ⟨hx, hxs⟩ := List.pairwise_cons.mp h
    by_cases hc : x.discovered_at ≤ e.discovered_at
    · simp only [insert_by_discovered_desc, if_pos hc]
      refine List.pairwise_cons.mpr ⟨?_, h⟩
      intro y hy
      rcases List.mem_cons.mp hy with rfl | hy
      · exact hc
      · exact le_trans (hx y hy) hc
    · simp only [insert_by_discovered_desc, if_neg hc]
      refine List.pairwise_cons.mpr ⟨?_, ih hxs⟩
      intro y hy
      rcases (mem_insert_by_discovered_desc e y xs).mp hy with rfl | hy
      · omega
      · exact hx y hy

theorem pairwise_sort_discovered_desc (l : List DiscoveredEntry) :
    (sort_discovered_desc l).Pairwise
      (fun a b => b.discovered_at ≤ a.discovered_at) := by
  induction l with
  | nil => simp [sort_discovered_desc]
  | cons x xs ih =>
    simpa only [sort_discovered_desc, List.foldr_cons]
      using pairwise_insert_by_discovered_desc x _ ih

theorem sort_discovered_desc_head_max (l : List DiscoveredEntry)
    (e : DiscoveredEntry) (h : (sort_discovered_desc l).head? = some e) :
    ∀ y ∈ sort_discovered_desc l, y.discovered_at ≤ e.discovered_at := by
  have hp := pairwise_sort_discovered_desc l
  cases hs : sort_discovered_desc l with
  | nil => rw [hs] at h; simp at h
  | cons a t =>
    rw [hs] at h
    simp only [List.head?_cons, Option.some_inj] at h
    subst h
    rw [hs] at hp
    obtain ⟨ha, _⟩ := List.pairwise_cons.mp hp
    intro y hy
    rcases List.mem_cons.mp hy with rfl | hy
    · exact le_refl _
    · exact ha y hy

/-- Claim C3 counterexample: with `auto_process_fel = true` and two
discovered entries timestamped 1 and 2, the scheduler selects the entry
timestamped 2 - the newest - although the entry timestamped 1 is in the
discovered listing; selection is not oldest-first (FIFO). -/
theorem C3_selection_counterexample :
    process_next_discovered .all true
        ⟨[⟨"a", "ta", .MEL, 1⟩, ⟨"b", "tb", .MEL, 2⟩], [], []⟩
      = some ⟨"b", "tb", .MEL, 2⟩ ∧
    (⟨"a", "ta", .MEL, 1⟩ : DiscoveredEntry) ∈ get_discovered
        ⟨[⟨"a", "ta", .MEL, 1⟩, ⟨"b", "tb", .MEL, 2⟩], [], []⟩ ∧
    (1 : Nat) < 2 := by
  refine ⟨by decide, by decide, by decide⟩

/-- Claim C3 (amended): for every scheduler conversion step with
`auto_process_fel = true`, a non-off auto mode and a non-empty discovered
listing, the selected candidate is a discovered entry with the largest
(newest) `discovered_at` - `get_discovered` orders `discovered_at DESC`
and the scheduler takes the first element, so conversions proceed in LIFO
order of `discovered_at`, not FIFO. -/
theorem C3_selection_is_newest (auto_mode : AutoMode) (db : StateDB)
    (e : DiscoveredEntry) (hmode : auto_mode ≠ .off)
    (hsel : process_next_discovered auto_mode true db = some e) :
    e ∈ get_discovered db ∧
    ∀ y ∈ get_discovered db, y.discovered_at ≤ e.discovered_at := by
  have hmode' : (auto_mode == AutoMode.off) = false := by
    cases auto_mode <;> simp_all
  rw [process_next_discovered, hmode'] at hsel
  simp only [Bool.false_eq_true, if_false, if_pos rfl, if_true] at hsel
  constructor
  · cases hl : get_discovered db with
    | nil => rw [hl] at hsel; simp at hsel
    | cons a t =>
      rw [hl] at hsel
      simp only [List.head?_cons, Option.some_inj] at hsel
      subst hsel
      exact List.mem_cons_self a t
  · exact fun y hy =>
      sort_discovered_desc_head_max _ e hsel y hy

/-- Witness for C3's amended theorem at the concrete two-entry catalog. -/
theorem C3_selection_is_newest_witness :
    (⟨"b", "tb", .MEL, 2⟩ : DiscoveredEntry) ∈ get_discovered
        ⟨[⟨"a", "ta", .MEL, 1⟩, ⟨"b", "tb", .MEL, 2⟩], [], []⟩ ∧
    ∀ y ∈ get_discovered
        ⟨[⟨"a", "ta", .MEL, 1⟩, ⟨"b", "tb", .MEL, 2⟩], [], []⟩,
      y.discovered_at ≤ (⟨"b", "tb", .MEL, 2⟩ : DiscoveredEntry).discovered_at :=
  C3_selection_is_newest .all
    ⟨[⟨"a", "ta", .MEL, 1⟩, ⟨"b", "tb", .MEL, 2⟩], [], []⟩
    ⟨"b", "tb", .MEL, 2⟩ (by decide) (by decide)

/-- `StateDB.is_processed` (src/src/state.py lines 167-174). -/
def is_processed (db : StateDB) (path : String) : Bool :=
  decide (path ∈ db.processed)

/-- `StateDB.is_discovered` (src/src/state.py lines 427-434). -/
def is_discovered (db : StateDB) (path : String) : Bool :=
  decide (path ∈ db.discovered.map DiscoveredEntry.file_path)

/-- `StateDB.add_discovered` (src/src/state.py lines 404-414):
`INSERT OR IGNORE` against the `UNIQUE` constraint on `file_path`, so a
duplicate path is a no-op.  The `el_type` column and the matching
parameter are modelled from the spec (see `DiscoveredEntry`); the
`discovered_at` timestamp (`CURRENT_TIMESTAMP`) is the `now` argument. -/
def add_discovered (db : StateDB) (path title : String) (el : ELType)
    (now : Nat) : StateDB :=
  if path ∈ db.discovered.map DiscoveredEntry.file_path then db
  else { db with discovered := db.discovered ++ [⟨path, title, el, now⟩] }

/-- `StateDB.add_scanned` (src/src/state.py lines 451-465), restricted to
the path column: an upsert keyed on `file_path` leaves the set of scanned
paths with at most one copy of `path`. -/
def add_scanned (db : StateDB) (path : String) : StateDB :=
  if path ∈ db.scanned then db else { db with scanned := path :: db.scanned }

/-- The EL-type label the scheduler stores:
`analysis.el_type.value if analysis.el_type else "UNKNOWN"`
(src/src/main.py lines 321, 331). -/
def elOf (a : MediaAnalysis) : ELType :=
  a.el_type.getD .UNKNOWN

/-- One file of `Visionarr._run_daemon_delta_scan` (src/src/main.py lines
298-340): paths in the batch-loaded scanned cache are skipped; otherwise
the verdict is recorded in `scanned_files` and, when `needs_conversion`,
the path is added to `discovered_files` - with no check against
`processed_files`. -/
def delta_scan_file (scanned_cache : List String) (db : StateDB)
    (path title : String) (a : MediaAnalysis) (now : Nat) : StateDB :=
  if path ∈ scanned_cache then db
  else
    let db1 := add_scanned db path
    if a.needs_conversion then add_discovered db1 path title (elOf a) now
    else db1

/-- One file of `Visionarr._run_daemon_full_scan` (src/src/main.py lines
342-377): the scanned row is upserted and the path is added to
`discovered_files` only when it is neither already discovered nor already
processed. -/
def full_scan_file (db : StateDB) (path title : String) (a : MediaAnalysis)
    (now : Nat) : StateDB :=
  let db1 := add_scanned db path
  if a.needs_conversion && !(is_discovered db1 path)
      && !(is_processed db1 path) then
    add_discovered db1 path title (elOf a) now
  else db1

theorem add_scanned_discovered (db : StateDB) (path : String) :
    (add_scanned db path).discovered = db.discovered ∧
    (add_scanned db path).processed = db.processed := by
  unfold add_scanned
  split <;> exact ⟨rfl, rfl⟩

theorem add_discovered_nodup (db : StateDB) (path title : String)
    (el : ELType) (now : Nat)
    (h : (db.discovered.map DiscoveredEntry.file_path).Nodup) :
    ((add_discovered db path title el now).discovered.map
      DiscoveredEntry.file_path).Nodup := by
  unfold add_discovered
  split
  next hc => exact h
  next hc =>
    have hx : ∀ x ∈ db.discovered, ¬ x.file_path = path := by
      intro x hxm hxe
      exact hc (hxe ▸ List.mem_map_of_mem DiscoveredEntry.file_path hxm)
    simpa [List.nodup_append] using ⟨h, hx⟩

/-- Claim C8 counterexample: a delta-scan iteration on a path that is in
`processed_files` but absent from the scanned cache, whose analysis still
reads Profile 7, adds the path to the discovered table. -/
theorem C8_delta_scan_counterexample :
    "p" ∈ ((delta_scan_file [] ⟨[], ["p"], []⟩ "p" "t"
        ⟨true, some .PROFILE_7, some .MEL, none, true, 0⟩ 5).discovered.map
          DiscoveredEntry.file_path) ∧
    "p" ∈ (⟨[], ["p"], []⟩ : StateDB).processed := by
  refine ⟨by decide, by decide⟩

/-- Claim C8 (amended): a full-scan iteration never adds a processed path
to the discovered table, and a delta-scan iteration is a no-op on any path
in the scanned cache (but has no processed-table guard, so a processed
path missing from the cache can be added); `add_discovered` is a no-op on
a duplicate path, both scan iterations preserve uniqueness of the
discovered paths, and the discovered listing never shows a processed
path. -/
theorem C8_scan_invariants (db : StateDB) (path title : String)
    (a : MediaAnalysis) (now : Nat) (el : ELType) :
    (path ∈ db.processed →
      (full_scan_file db path title a now).discovered = db.discovered) ∧
    (path ∈ db.scanned →
      delta_scan_file db.scanned db path title a now = db) ∧
    (path ∈ db.discovered.map DiscoveredEntry.file_path →
      add_discovered db path title el now = db) ∧
    ((db.discovered.map DiscoveredEntry.file_path).Nodup →
      ((delta_scan_file db.scanned db path title a now).discovered.map
          DiscoveredEntry.file_path).Nodup ∧
      ((full_scan_file db path title a now).discovered.map
          DiscoveredEntry.file_path).Nodup) ∧
    (∀ e ∈ get_discovered db, e.file_path ∉ db.processed) := by
  obtain ⟨hd1, hp1⟩ := add_scanned_discovered db path
  refine ⟨?_, ?_, ?_, ?_, ?_⟩
  · intro h
    have hip : is_processed (add_scanned db path) path = true := by
      simp [is_processed, hp1, h]
    unfold full_scan_file
    dsimp only
    rw [hip]
    simp [hd1]
  · intro h
    simp [delta_scan_file, h]
  · intro h
    simp [add_discovered, h]
  · intro h
    constructor
    · unfold delta_scan_file
      dsimp only
      split
      · exact h
      · split
        · exact add_discovered_nodup _ path title (elOf a) now
            (by rw [hd1]; exact h)
        · rw [hd1]; exact h
    · unfold full_scan_file
      dsimp only
      split
      · exact add_discovered_nodup _ path title (elOf a) now
          (by rw [hd1]; exact h)
      · rw [hd1]; exact h
  · intro e he
    have hm : e ∈ db.discovered.filter
        (fun e => decide (e.file_path ∉ db.processed)) :=
      (mem_sort_discovered_desc e _).mp he
    have := List.of_mem_filter hm
    simpa using this

/-- Witness for C8's amended theorem: the delta-scan skip of an
already-scanned path at a concrete catalog. -/
theorem C8_scan_invariants_witness :
    delta_scan_file ["q"] ⟨[], [], ["q"]⟩ "q" "t"
        ⟨false, none, none, none, true, 0⟩ 1
      = ⟨[], [], ["q"]⟩ :=
  (C8_scan_invariants ⟨[], [], ["q"]⟩ "q" "t"
      ⟨false, none, none, none, true, 0⟩ 1 .MEL).2.1 (by decide)

/-! PQ math (`pq_to_nits`, src/dovi_convert.py lines 227-263; the method
`Processor._pq_to_nits`, src/src/processor.py lines 215-256, is
identical).  Python doubles are idealized as real numbers: `math.pow`
becomes `Real.rpow`, and the `except (ValueError, OverflowError)` guard
has no analogue over ℝ, where every step of the computation is total.
Python's `round` (banker's rounding) and Mathlib's `round` agree except
at exact halves, which none of the claimed values hit. -/

/-- The ST.2084 EOTF body of `pq_to_nits` applied to the normalized code
value `V`: constants, `vp = V^(1/m2)`, `num = max(vp - c1, 0)`,
`den = c2 - c3*vp` (replaced by 1e-6 when zero) and
`10000 * (max(num/den, 0))^(1/m1)`. -/
noncomputable def pq_eotf (V : ℝ) : ℝ :=
  let m1 : ℝ := 2610 / 16384
  let m2 : ℝ := 2523 / 32
  let c1 : ℝ := 3424 / 4096
  let c2 : ℝ := 2413 / 128
  let c3 : ℝ := 2392 / 128
  let vp : ℝ := V ^ (1 / m2)
  let num : ℝ := max (vp - c1) 0
  let den0 : ℝ := c2 - c3 * vp
  let den : ℝ := if den0 = 0 then 0.000001 else den0
  let base_val : ℝ := max (num / den) 0
  10000 * base_val ^ (1 / m1)

/-- `pq_to_nits` (src/dovi_convert.py lines 227-263): non-positive code
values return 0 immediately, the normalized value `V = code_val / 4095`
is guarded a second time against non-positive values, and otherwise the
EOTF result is rounded to integer nits. -/
noncomputable def pq_to_nits (code_val : Int) : Int :=
  if code_val ≤ 0 then 0
  else if ((code_val : ℝ) / 4095 : ℝ) ≤ 0 then 0
  else round (pq_eotf ((code_val : ℝ) / 4095))

theorem pq_core_one :
    10000 * (max (max ((1 : ℝ) - 3424 / 4096) 0 /
        (if (2413 / 128 - 2392 / 128 * (1 : ℝ) : ℝ) = 0 then 0.000001
         else 2413 / 128 - 2392 / 128 * (1 : ℝ))) 0) ^ ((1 : ℝ) / (2610 / 16384))
      = 10000 := by
  rw [if_neg (by norm_num)]
  have h1 : max ((1 : ℝ) - 3424 / 4096) 0 = 21 / 128 := by
    rw [max_eq_left (by norm_num)]
    norm_num
  rw [h1]
  have h2 : (21 / 128 : ℝ) / (2413 / 128 - 2392 / 128 * (1 : ℝ)) = 1 := by
    norm_num
  rw [h2]
  rw [max_eq_left (by norm_num : (0 : ℝ) ≤ 1)]
  rw [Real.one_rpow]
  norm_num

theorem pq_core_le (vp : ℝ) (_h0 : 0 ≤ vp) (h1 : vp ≤ 1) :
    10000 * (max (max (vp - 3424 / 4096) 0 /
        (if (2413 / 128 - 2392 / 128 * vp : ℝ) = 0 then 0.000001
         else 2413 / 128 - 2392 / 128 * vp)) 0) ^ ((1 : ℝ) / (2610 / 16384))
      ≤ 10000 := by
  have hden_pos : (0 : ℝ) < 2413 / 128 - 2392 / 128 * vp := by linarith
  rw [if_neg (ne_of_gt hden_pos)]
  have hr0 : 0 ≤ max (vp - 3424 / 4096) 0 / (2413 / 128 - 2392 / 128 * vp) :=
    div_nonneg (le_max_right _ _) hden_pos.le
  have hnum_le : max (vp - 3424 / 4096) 0 ≤ 2413 / 128 - 2392 / 128 * vp := by
    apply max_le
    · linarith
    · linarith
  have hr1 : max (vp - 3424 / 4096) 0 / (2413 / 128 - 2392 / 128 * vp) ≤ 1 := by
    rw [div_le_one hden_pos]
    exact hnum_le
  rw [max_eq_left hr0]
  have hpow : (max (vp - 3424 / 4096) 0 / (2413 / 128 - 2392 / 128 * vp))
      ^ ((1 : ℝ) / (2610 / 16384)) ≤ 1 :=
    Real.rpow_le_one hr0 hr1 (by norm_num)
  calc 10000 * (max (vp - 3424 / 4096) 0 / (2413 / 128 - 2392 / 128 * vp))
        ^ ((1 : ℝ) / (2610 / 16384))
      ≤ 10000 * 1 := by
        exact mul_le_mul_of_nonneg_left hpow (by norm_num)
    _ = 10000 := by norm_num

theorem pq_eotf_one : pq_eotf 1 = 10000 := by
  have hvp : (1 : ℝ) ^ ((1 : ℝ) / (2523 / 32)) = 1 := Real.one_rpow _
  unfold pq_eotf
  simp only
  rw [hvp]
  exact pq_core_one

theorem pq_eotf_le (V : ℝ) (h0 : 0 ≤ V) (h1 : V ≤ 1) : pq_eotf V ≤ 10000 := by
  have hvp0 : 0 ≤ V ^ ((1 : ℝ) / (2523 / 32)) := Real.rpow_nonneg h0 _
  have hvp1 : V ^ ((1 : ℝ) / (2523 / 32)) ≤ 1 :=
    Real.rpow_le_one h0 h1 (by norm_num)
  unfold pq_eotf
  simp only
  exact pq_core_le _ hvp0 hvp1

/-- Claim C9: `pq_to_nits` returns 0 for every non-positive code value
(the real-valued model has no domain errors); `pq_to_nits 0 = 0` and
`pq_to_nits 4095 = 10000` exactly (every float step is exact at code
4095, so the ±1-ulp allowance is not needed); and for every code value in
the 12-bit domain the returned luminance is capped at 10000 nits. -/
theorem C9_pq_to_nits (code_val : Int) :
    (code_val ≤ 0 → pq_to_nits code_val = 0) ∧
    pq_to_nits 0 = 0 ∧
    pq_to_nits 4095 = 10000 ∧
    (code_val ≤ 4095 → pq_to_nits code_val ≤ 10000) := by
  refine ⟨?_, ?_, ?_, ?_⟩
  · intro h
    simp [pq_to_nits, h]
  · simp [pq_to_nits]
  · unfold pq_to_nits
    rw [if_neg (by norm_num : ¬ (4095 : Int) ≤ 0)]
    have hV : (((4095 : Int) : ℝ) / 4095 : ℝ) = 1 := by norm_num
    rw [hV]
    rw [if_neg (by norm_num : ¬ (1 : ℝ) ≤ 0)]
    rw [pq_eotf_one]
    exact round_ofNat 10000
  · intro hle
    by_cases h0 : code_val ≤ 0
    · simp [pq_to_nits, h0]
    · unfold pq_to_nits
      rw [if_neg h0]
      by_cases hV0 : ((code_val : ℝ) / 4095 : ℝ) ≤ 0
      · rw [if_pos hV0]
        norm_num
      · rw [if_neg hV0]
        have hVpos : (0 : ℝ) < (code_val : ℝ) / 4095 := lt_of_not_le hV0
        have hV1 : ((code_val : ℝ) / 4095 : ℝ) ≤ 1 := by
          rw [div_le_one (by norm_num : (0 : ℝ) < 4095)]
          exact_mod_cast hle
        have hq := pq_eotf_le _ hVpos.le hV1
        calc round (pq_eotf ((code_val : ℝ) / 4095))
            ≤ round ((10000 : ℝ)) := by
              rw [round_eq, round_eq]
              exact Int.floor_le_floor (by linarith)
          _ = 10000 := round_ofNat 10000

/-- Witness for C9 at the concrete code values -5 and 4095. -/
theorem C9_pq_to_nits_witness :
    pq_to_nits (-5) = 0 ∧ pq_to_nits 4095 ≤ 10000 :=
  ⟨(C9_pq_to_nits (-5)).1 (by decide), (C9_pq_to_nits 4095).2.2.2 (by decide)⟩

end Visionarr
